import Mathlib

/-!
Shallow embedding of the keymaster repository.

Source files embedded:
- src/keymaster_api.py : the request/response data model and the two
  endpoint handlers `calibrate` and `analyze`.
- src/auth.py : the basic-auth credential check `authenticate` and the
  in-memory user store `users`.

Modelling conventions:
- Python floats are modelled as rationals.  Every float literal that the
  stubbed code manipulates (0.0012, 1.0, 0.0) denotes a single fixed value
  and the code performs no arithmetic on them, so no rounding behaviour is
  lost.
- Python ints are modelled as integers; list lengths coerce from Nat.
- Each handler body sits inside a try/except whose except branch returns a
  JSONResponse with status 500 and an error string.  The embedded handlers
  return an Except whose error side carries that shape (ApiError).  The
  handler bodies are total pure constructions that cannot raise, so the
  embedded functions always take the Except.ok branch, exactly as the
  Python bodies never reach their except branch.
- secrets.compare_digest is a constant-time string comparison; its result
  is equality of the two strings, which is how it is embedded.  FastAPI
  decodes basic-auth credentials to ASCII strings before the dependency
  runs, so plain string equality is faithful on every input authenticate
  can receive.
- The f-string format specifier .4f is embedded by formatFixed4: round the
  value to four decimal places (ties to even, as float formatting does)
  and render with exactly four fractional digits.
-/

/-- A 3D point, mirroring PointModel in src/keymaster_api.py. -/
structure PointModel where
  x : ℚ
  y : ℚ
  z : ℚ
  deriving DecidableEq, Repr

/-- Mirrors CalibrationResultModel in src/keymaster_api.py: rmse, the 16
row-major transform elements, a platform tag and the number of points used. -/
structure CalibrationResultModel where
  rmse : ℚ
  transform_elements : List ℚ
  source_platform : String
  num_points_used : ℤ
  deriving DecidableEq, Repr

/-- Mirrors CalibrationRequestModel in src/keymaster_api.py: the ARW
(source) and RWP (target) point lists. -/
structure CalibrationRequestModel where
  arw_points : List PointModel
  rwp_points : List PointModel
  deriving DecidableEq, Repr

/-- Mirrors AnalysisRequestModel in src/keymaster_api.py: a calibration
result plus a prompt string. -/
structure AnalysisRequestModel where
  result : CalibrationResultModel
  prompt : String
  deriving DecidableEq, Repr

/-- The error shape produced by the except branches of the handlers in
src/keymaster_api.py: JSONResponse(status_code=500, content=\x7b"error": str(e)\x7d). -/
structure ApiError where
  status_code : ℕ
  error : String
  deriving DecidableEq, Repr

/-- The handler of POST /api/calibrate in src/keymaster_api.py.  The body
builds mock_result: rmse 0.0012, transform_elements the list comprehension
[1.0 if i % 5 == 0 else 0.0 for i in range(16)], source_platform "python",
num_points_used len(request.arw_points).  The body cannot raise, so the
except branch (status 500) is unreachable and the function always returns
the ok branch. -/
def calibrate (request : CalibrationRequestModel) :
    Except ApiError CalibrationResultModel :=
  Except.ok
    { rmse := 0.0012
      transform_elements :=
        (List.range 16).map (fun i => if i % 5 = 0 then (1 : ℚ) else 0)
      source_platform := "python"
      num_points_used := (request.arw_points.length : ℤ) }

/-- Round a rational to the nearest integer, ties to even: the rounding
used by float fixed-point formatting. -/
def roundHalfEven (q : ℚ) : ℤ :=
  let f : ℤ := ⌊q⌋
  let r : ℚ := q - f
  if r < 1/2 then f
  else if 1/2 < r then f + 1
  else if f % 2 = 0 then f else f + 1

/-- Embedding of the Python format specifier .4f: render q with exactly
four digits after the decimal point, rounding ties to even; a negative
value carries a leading minus sign. -/
def formatFixed4 (q : ℚ) : String :=
  let n : ℤ := roundHalfEven (q * 10000)
  let sign : String := if q < 0 then "-" else ""
  let m : ℕ := n.natAbs
  let intPart : ℕ := m / 10000
  let fracPart : ℕ := m % 10000
  let fracStr : String := toString fracPart
  let padded : String :=
    String.mk (List.replicate (4 - fracStr.length) '0') ++ fracStr
  sign ++ toString intPart ++ "." ++ padded

/-- The response shape of POST /api/analyze: the dict with the single key
"analysis". -/
structure AnalysisResponse where
  analysis : String
  deriving DecidableEq, Repr

/-- The handler of POST /api/analyze in src/keymaster_api.py.  It builds
the f-string "AI Analysis: The received RMSE is \x7brequest.result.rmse:.4f\x7d.
Data parsed successfully." and returns it under the key "analysis".  The
body cannot raise, so the except branch is unreachable. -/
def analyze (request : AnalysisRequestModel) :
    Except ApiError AnalysisResponse :=
  Except.ok
    { analysis :=
        "AI Analysis: The received RMSE is " ++
          formatFixed4 request.result.rmse ++ ". Data parsed successfully." }

/-- Basic-auth credentials, mirroring HTTPBasicCredentials. -/
structure HTTPBasicCredentials where
  username : String
  password : String
  deriving DecidableEq, Repr

/-- The error raised by authenticate in src/auth.py: HTTPException with a
status code, a detail string and response headers. -/
structure HTTPError where
  status_code : ℕ
  detail : String
  headers : List (String × String)
  deriving DecidableEq, Repr

/-- The in-memory user store of src/auth.py: the dict with the single
entry mapping "admin" to "password123". -/
def users : List (String × String) := [("admin", "password123")]

/-- The authenticate dependency of src/auth.py: compare the supplied
username with "admin" and the supplied password with users["admin"] (both
via secrets.compare_digest, embedded as string equality); on failure raise
HTTP 401 with the WWW-Authenticate Basic header, on success return the
supplied username. -/
def authenticate (credentials : HTTPBasicCredentials) :
    Except HTTPError String :=
  let correct_username : Bool := credentials.username == "admin"
  let correct_password : Bool :=
    credentials.password == ((users.lookup "admin").getD "")
  if ¬ (correct_username && correct_password) then
    Except.error
      { status_code := 401
        detail := "Incorrect username or password"
        headers := [("WWW-Authenticate", "Basic")] }
  else
    Except.ok credentials.username

/-- Concrete request used to witness and refute claims about calibrate
called with source equal to target. -/
def c2req : CalibrationRequestModel :=
  { arw_points := [⟨1, 2, 3⟩], rwp_points := [⟨1, 2, 3⟩] }

/-- Concrete source list of length 3. -/
def c3src : List PointModel := [⟨1, 2, 3⟩, ⟨4, 5, 6⟩, ⟨7, 8, 10⟩]

/-- Concrete target list of length 2. -/
def c3tgt : List PointModel := [⟨0, 0, 0⟩, ⟨1, 1, 1⟩]

/-- Concrete request with two point correspondences. -/
def c4req : CalibrationRequestModel :=
  { arw_points := [⟨0, 0, 0⟩, ⟨1, 0, 0⟩], rwp_points := [⟨0, 0, 1⟩, ⟨1, 0, 1⟩] }

/-- Concrete request used by the shape witness. -/
def c5req : CalibrationRequestModel :=
  { arw_points := [⟨2, 0, 0⟩], rwp_points := [⟨0, 2, 0⟩] }

/-- The result calibrate returns for c5req. -/
def c5res : CalibrationResultModel :=
  { rmse := 0.0012
    transform_elements :=
      (List.range 16).map (fun i => if i % 5 = 0 then (1 : ℚ) else 0)
    source_platform := "python"
    num_points_used := 1 }

/-- First of two field-identical concrete requests for the determinism
witness. -/
def c6reqA : CalibrationRequestModel :=
  { arw_points := [⟨1, 2, 3⟩], rwp_points := [⟨4, 5, 6⟩] }

/-- Second of two field-identical concrete requests for the determinism
witness. -/
def c6reqB : CalibrationRequestModel :=
  { arw_points := [⟨1, 2, 3⟩], rwp_points := [⟨4, 5, 6⟩] }

/-- C1: for every calibration request, calibrate returns a result whose 16
row-major transform elements are the 4x4 identity matrix (1 at indices 0,
5, 10, 15 and 0 elsewhere), regardless of the input point values. -/
theorem calibrate_transform_identity (req : CalibrationRequestModel) :
    (calibrate req).toOption.map CalibrationResultModel.transform_elements =
      some [1, 0, 0, 0, 0, 1, 0, 0, 0, 0, 1, 0, 0, 0, 0, 1] := by
  rfl

/-- C2 counterexample: calling calibrate with source equal to target (the
single point (1,2,3) on both sides) yields rmse 0.0012, which is not 0, so
the claimed rmse of 0 is false. -/
theorem calibrate_self_rmse_nonzero_cex :
    (calibrate c2req).toOption.map CalibrationResultModel.rmse = some 0.0012 ∧
      (0.0012 : ℚ) ≠ 0 := by
  constructor
  · rfl
  · norm_num

/-- C2 amended: for every non-empty point list, calling calibrate with the
source list equal to the target list returns the identity transform and an
rmse of 0.0012 (the stubbed constant), not 0. -/
theorem calibrate_self_identity (pts : List PointModel) (h : pts ≠ []) :
    (calibrate { arw_points := pts, rwp_points := pts }).toOption.map
        (fun r => (r.transform_elements, r.rmse)) =
      some ([1, 0, 0, 0, 0, 1, 0, 0, 0, 0, 1, 0, 0, 0, 0, 1], 0.0012) := by
  rfl

/-- C2 amended witness: the amended statement at the concrete one-point
list of c2req. -/
theorem calibrate_self_identity_witness :
    [(⟨1, 2, 3⟩ : PointModel)] ≠ [] ∧
      (calibrate { arw_points := [⟨1, 2, 3⟩], rwp_points := [⟨1, 2, 3⟩] }).toOption.map
          (fun r => (r.transform_elements, r.rmse)) =
        some ([1, 0, 0, 0, 0, 1, 0, 0, 0, 0, 1, 0, 0, 0, 0, 1], 0.0012) :=
  ⟨by decide, calibrate_self_identity [⟨1, 2, 3⟩] (by decide)⟩

/-- C3 counterexample: calibrate called with a source of length 3 and a
target of length 2 returns a CalibrationResult (the ok branch) instead of
failing with a LengthMismatch error. -/
theorem calibrate_length_mismatch_cex :
    (calibrate { arw_points := c3src, rwp_points := c3tgt }).isOk = true ∧
      c3src.length = 3 ∧ c3tgt.length = 2 := by
  refine ⟨rfl, rfl, rfl⟩

/-- C3 amended: for every pair of point lists whose lengths differ,
calibrate succeeds, returning a CalibrationResult whose num_points_used is
the source length; no LengthMismatch error is produced. -/
theorem calibrate_length_mismatch_no_error (src tgt : List PointModel)
    (h : src.length ≠ tgt.length) :
    (calibrate { arw_points := src, rwp_points := tgt }).toOption.map
        CalibrationResultModel.num_points_used = some (src.length : ℤ) := by
  rfl

/-- C3 amended witness: the amended statement at source length 3 and
target length 2. -/
theorem calibrate_length_mismatch_no_error_witness :
    c3src.length ≠ c3tgt.length ∧
      (calibrate { arw_points := c3src, rwp_points := c3tgt }).toOption.map
          CalibrationResultModel.num_points_used = some (c3src.length : ℤ) :=
  ⟨by decide, calibrate_length_mismatch_no_error c3src c3tgt (by decide)⟩

/-- C4 counterexample: calibrate called with exactly two point
correspondences returns a CalibrationResult (the ok branch) instead of
failing with an InsufficientPoints error. -/
theorem calibrate_two_points_cex :
    (calibrate c4req).isOk = true ∧ c4req.arw_points.length = 2 := by
  refine ⟨rfl, rfl⟩

/-- C4 amended: for every request with fewer than 3 point correspondences,
calibrate succeeds, returning a CalibrationResult; no InsufficientPoints
error is produced. -/
theorem calibrate_insufficient_points_no_error (src tgt : List PointModel)
    (h : src.length < 3) :
    (calibrate { arw_points := src, rwp_points := tgt }).isOk = true := by
  rfl

/-- C4 amended witness: the amended statement at two point
correspondences. -/
theorem calibrate_insufficient_points_no_error_witness :
    c4req.arw_points.length < 3 ∧
      (calibrate { arw_points := c4req.arw_points, rwp_points := c4req.rwp_points }).isOk
        = true :=
  ⟨by decide,
    calibrate_insufficient_points_no_error c4req.arw_points c4req.rwp_points (by decide)⟩

/-- C5: every result calibrate returns satisfies the output-shape
invariants: transform_elements has exactly 16 elements, its bottom row
(indices 12 to 15) is [0, 0, 0, 1], rmse is non-negative and
num_points_used is a non-negative integer. -/
theorem calibrate_result_shape (req : CalibrationRequestModel)
    (r : CalibrationResultModel) (h : calibrate req = Except.ok r) :
    r.transform_elements.length = 16 ∧
      r.transform_elements.drop 12 = [0, 0, 0, 1] ∧
      0 ≤ r.rmse ∧ 0 ≤ r.num_points_used := by
  have hr : r = { rmse := 0.0012
                  transform_elements :=
                    (List.range 16).map (fun i => if i % 5 = 0 then (1 : ℚ) else 0)
                  source_platform := "python"
                  num_points_used := (req.arw_points.length : ℤ) } := by
    cases h
    rfl
  subst hr
  refine ⟨by rfl, by rfl, by norm_num, Int.ofNat_nonneg _⟩

/-- C5 witness: the shape invariants at the concrete request c5req and its
result c5res. -/
theorem calibrate_result_shape_witness :
    calibrate c5req = Except.ok c5res ∧
      (c5res.transform_elements.length = 16 ∧
        c5res.transform_elements.drop 12 = [0, 0, 0, 1] ∧
        0 ≤ c5res.rmse ∧ 0 ≤ c5res.num_points_used) :=
  ⟨rfl, calibrate_result_shape c5req c5res rfl⟩

/-- C6: calibrate is deterministic: two requests carrying the same point
values in the same order receive identical responses (hence identical
transform_elements, rmse, source_platform and num_points_used). -/
theorem calibrate_deterministic (r1 r2 : CalibrationRequestModel)
    (h1 : r1.arw_points = r2.arw_points) (h2 : r1.rwp_points = r2.rwp_points) :
    calibrate r1 = calibrate r2 := by
  have h : r1 = r2 := by
    cases r1
    cases r2
    simp only [CalibrationRequestModel.mk.injEq]
    exact ⟨h1, h2⟩
  rw [h]

/-- C6 witness: determinism at the two field-identical concrete requests
c6reqA and c6reqB. -/
theorem calibrate_deterministic_witness :
    c6reqA.arw_points = c6reqB.arw_points ∧
      c6reqA.rwp_points = c6reqB.rwp_points ∧
      calibrate c6reqA = calibrate c6reqB :=
  ⟨rfl, rfl, calibrate_deterministic c6reqA c6reqB rfl rfl⟩

/-- C7: for every analysis request, analyze returns a record with an
analysis string in which the rmse of the supplied result, formatted to
four decimal places, appears as a substring. -/
theorem analyze_echoes_rmse (req : AnalysisRequestModel) :
    ∃ a, analyze req = Except.ok a ∧
      ∃ s t, a.analysis = s ++ formatFixed4 req.result.rmse ++ t :=
  ⟨_, rfl, "AI Analysis: The received RMSE is ", ". Data parsed successfully.", rfl⟩

/-- C8: authenticate returns the supplied username exactly when the
username is "admin" and the password is the stored password of "admin"
(password123); every other credential pair fails with HTTP 401 carrying
the WWW-Authenticate Basic header. -/
theorem authenticate_gate (c : HTTPBasicCredentials) :
    (authenticate c = Except.ok c.username ↔
        (c.username = "admin" ∧ c.password = "password123")) ∧
      (¬ (c.username = "admin" ∧ c.password = "password123") →
        authenticate c = Except.error
          { status_code := 401
            detail := "Incorrect username or password"
            headers := [("WWW-Authenticate", "Basic")] }) := by
  by_cases hu : c.username = "admin" <;> by_cases hp : c.password = "password123" <;>
    simp [authenticate, users, hu, hp]

/-- C8 witness: the correct credential pair is accepted and a wrong
username is rejected with the 401 error. -/
theorem authenticate_gate_witness :
    authenticate { username := "admin", password := "password123" } =
        Except.ok "admin" ∧
      authenticate { username := "alice", password := "password123" } =
        Except.error
          { status_code := 401
            detail := "Incorrect username or password"
            headers := [("WWW-Authenticate", "Basic")] } :=
  ⟨(authenticate_gate { username := "admin", password := "password123" }).1.mpr
      ⟨rfl, rfl⟩,
    (authenticate_gate { username := "alice", password := "password123" }).2
      (by decide)⟩

/-- C9: for every pair of point lists, including empty and unequal-length
ones, calibrate succeeds and sets num_points_used to the length of the
source (arw) list, ignoring the target (rwp) list entirely. -/
theorem calibrate_num_points_used (src tgt : List PointModel) :
    (calibrate { arw_points := src, rwp_points := tgt }).toOption.map
        CalibrationResultModel.num_points_used = some (src.length : ℤ) := by
  rfl

/-- C10: the rmse and source_platform of the calibrate response carry no
information about the input: any two requests receive the same pair, and
that pair is (0.0012, "python"). -/
theorem calibrate_rmse_platform_constant (req1 req2 : CalibrationRequestModel) :
    (calibrate req1).toOption.map (fun r => (r.rmse, r.source_platform)) =
        (calibrate req2).toOption.map (fun r => (r.rmse, r.source_platform)) ∧
      (calibrate req1).toOption.map (fun r => (r.rmse, r.source_platform)) =
        some (0.0012, "python") :=
  ⟨rfl, rfl⟩
